import Mathlib

/-!
Shallow embedding of the arxiv-ai-explorer frontend (React/TypeScript).

HTTP requests are modelled as records of method, path and a JSON object body
(string-valued fields only, which is all the embedded call sites use).
`localStorage` and `sessionStorage` are modelled as association lists.
JavaScript string truthiness (`s || fallback`, `if (s)`) is modelled
explicitly: the empty string is falsy, every other string is truthy.
Asynchronous HTTP outcomes are modelled as `Except` values: `.ok d` is a
resolved response with payload `d`, `.error detail` is a rejected promise
carrying `error.response?.data?.detail` (absent when the failure had no
response body, e.g. a network error).
-/

/-- HTTP method of a request issued through the axios instance. -/
inductive Method where
  | get
  | post
  | delete
deriving DecidableEq, Repr

/-- A request issued through the axios instance: method, URL path (with query
string) and JSON body rendered as a list of string-valued fields. -/
structure Request where
  method : Method
  path : String
  body : List (String × String)
deriving DecidableEq, Repr

/-- JavaScript `x?.y || fallback` on an optional string: the fallback is used
when the string is absent or empty (falsy), otherwise the string itself. -/
def orElseStr : Option String → String → String
  | some s, fallback => if s = "" then fallback else s
  | none, fallback => fallback

/-- `localStorage.getItem`: first binding of the key in the store. -/
def lsGet (store : List (String × String)) (key : String) : Option String :=
  (store.find? (fun kv => kv.1 = key)).map (fun kv => kv.2)

/-- `localStorage.setItem`: bind the key, shadowing earlier bindings. -/
def lsSet (store : List (String × String)) (key value : String) :
    List (String × String) :=
  (key, value) :: store.filter (fun kv => kv.1 ≠ key)

/-- `localStorage.removeItem`. -/
def lsRemove (store : List (String × String)) (key : String) :
    List (String × String) :=
  store.filter (fun kv => kv.1 ≠ key)

/-- JavaScript `s.trim()`: strip leading and trailing whitespace. -/
def jsTrim (s : String) : String :=
  String.mk
    (((s.toList.dropWhile Char.isWhitespace).reverse.dropWhile
      Char.isWhitespace).reverse)

/-- Uppercase hexadecimal digit for `n < 16`. -/
def hexDigit (n : Nat) : Char :=
  if n < 10 then Char.ofNat (48 + n) else Char.ofNat (55 + n)

/-- UTF-8 encoding of a Unicode code point as a list of byte values. -/
def utf8Bytes (c : Nat) : List Nat :=
  if c < 0x80 then [c]
  else if c < 0x800 then [0xC0 + c / 64, 0x80 + c % 64]
  else if c < 0x10000 then [0xE0 + c / 4096, 0x80 + (c / 64) % 64, 0x80 + c % 64]
  else [0xF0 + c / 262144, 0x80 + (c / 4096) % 64, 0x80 + (c / 64) % 64, 0x80 + c % 64]

/-- Percent-encode a single byte value as `%HH` with uppercase hex digits. -/
def percentByte (n : Nat) : String :=
  String.mk ['%', hexDigit (n / 16 % 16), hexDigit (n % 16)]

/-- Characters left unescaped by JavaScript `encodeURIComponent`:
ASCII alphanumerics and `- _ . ! ~ * ' ( )`. -/
def isUnreservedURIChar (c : Char) : Bool :=
  (c.isAlpha && c.toNat < 128) || c.isDigit || c = '-' || c = '_' || c = '.' ||
    c = '!' || c = '~' || c = '*' || c.toNat = 39 || c = '(' || c = ')'

/-- JavaScript `encodeURIComponent`: unreserved characters pass through,
every other character is replaced by the percent-encoding of its UTF-8 bytes. -/
def encodeURIComponent (s : String) : String :=
  String.join (s.toList.map (fun c =>
    if isUnreservedURIChar c then String.singleton c
    else String.join ((utf8Bytes c.toNat).map percentByte)))

/-!  Request builders of `apiEndpoints` (frontend/src/services/api.ts). -/

namespace apiEndpoints

/-- `api.get('/health')` (api.ts line 24). -/
def health : Request :=
  ⟨.get, "/health", []⟩

/-- `api.get('/health/detailed')` (api.ts line 25). -/
def healthDetailed : Request :=
  ⟨.get, "/health/detailed", []⟩

/-- `queryAssistant` (api.ts lines 27-28): GET `/assistant` with the
URL-encoded query, the chat id and the conversation type in the query string. -/
def queryAssistant (query chatId conversationType : String) : Request :=
  ⟨.get,
    "/assistant?q=" ++ encodeURIComponent query ++ "&chat_id=" ++ chatId ++
      "&conversation_type=" ++ conversationType,
    []⟩

/-- `getSessionInfo` (api.ts lines 33-34). -/
def getSessionInfo (chatId : String) : Request :=
  ⟨.get, "/assistant/session/" ++ chatId, []⟩

/-- `clearSession` (api.ts lines 36-37). -/
def clearSession (chatId : String) : Request :=
  ⟨.delete, "/assistant/session/" ++ chatId, []⟩

/-- `switchContextStrategy` (api.ts lines 39-40): POST
`/assistant/session/{chatId}/strategy` with body `{ strategy }`. -/
def switchContextStrategy (chatId strategy : String) : Request :=
  ⟨.post, "/assistant/session/" ++ chatId ++ "/strategy", [("strategy", strategy)]⟩

/-- `addFocusedPaper` (api.ts lines 61-62): POST
`/assistant/session/{chatId}/focus` with body `{ arxiv_id, title }`. -/
def addFocusedPaper (chatId arxiv_id title : String) : Request :=
  ⟨.post, "/assistant/session/" ++ chatId ++ "/focus",
    [("arxiv_id", arxiv_id), ("title", title)]⟩

/-- `removeFocusedPaper` (api.ts lines 64-65): DELETE
`/assistant/session/{chatId}/focus/{arxivId}`. -/
def removeFocusedPaper (chatId arxivId : String) : Request :=
  ⟨.delete, "/assistant/session/" ++ chatId ++ "/focus/" ++ arxivId, []⟩

/-- `getFocusedPapers` (api.ts lines 70-71). -/
def getFocusedPapers (chatId : String) : Request :=
  ⟨.get, "/assistant/session/" ++ chatId ++ "/focus", []⟩

/-- `sendMessage` (api.ts line 53): POST `/chats/{chatId}/messages` with body
`{ role, content, client_msg_id }`. -/
def sendMessage (chatId role content clientMsgId : String) : Request :=
  ⟨.post, "/chats/" ++ chatId ++ "/messages",
    [("role", role), ("content", content), ("client_msg_id", clientMsgId)]⟩

end apiEndpoints

/-! ## `apiHelpers` (frontend/src/services/api.ts lines 89-313)

Every operation wraps its HTTP call in try/catch and returns a plain value.
Each operation is embedded as a total function of the HTTP outcome.  On a
resolved response the operations return `{ success: true }` together with the
response payload (original field names `data`, `items`, `chat`, `messages`,
`message`, ... are all represented by the `data` field here); on a rejected
promise they return `{ success: false, error: detail || fallback }` with the
operation's own fallback message, except `checkHealth` (a bare boolean) and
`getSystemStatus` (an error-status record). -/

/-- Shape of the `{ success, data?, error? }` objects returned by the
`apiHelpers` operations. -/
structure HelperResult (α : Type) where
  success : Bool
  data : Option α
  error : Option String
deriving DecidableEq, Repr

/-- Record returned by `apiHelpers.getSystemStatus`; `services` is the JSON
object of service states, rendered as an association list. -/
structure SystemStatus where
  status : String
  services : List (String × String)
  version : String
deriving DecidableEq, Repr

namespace apiHelpers

/-- `checkHealth` (api.ts lines 90-97): `response.data.status === 'healthy'`
on success, `false` on any failure. -/
def checkHealth (outcome : Except (Option String) String) : Bool :=
  match outcome with
  | .ok status => status = "healthy"
  | .error _ => false

/-- Session id used by `apiHelpers.queryAssistant` (api.ts line 100):
js `chatId || ` and then `chat_` followed by `Date.now()`. -/
def queryAssistantSessionId (chatId : Option String) (now : Nat) : String :=
  orElseStr chatId ("chat_" ++ toString now)

/-- The request issued by `apiHelpers.queryAssistant` (api.ts line 103). -/
def queryAssistantRequest (query : String) (chatId : Option String) (now : Nat)
    (conversationType : String) : Request :=
  apiEndpoints.queryAssistant query (queryAssistantSessionId chatId now)
    conversationType

/-- `apiHelpers.queryAssistant` called without an explicit conversation type
uses the TypeScript default parameter value `'research'` (api.ts line 99). -/
def queryAssistantRequestDefault (query : String) (chatId : Option String)
    (now : Nat) : Request :=
  queryAssistantRequest query chatId now "research"

/-- Result of `apiHelpers.queryAssistant` (api.ts lines 99-115). -/
def queryAssistant (outcome : Except (Option String) α) : HelperResult α :=
  match outcome with
  | .ok d => ⟨true, some d, none⟩
  | .error detail => ⟨false, none, some (orElseStr detail "Failed to query assistant")⟩

/-- `getSessionInfo` (api.ts lines 117-130). -/
def getSessionInfo (outcome : Except (Option String) α) : HelperResult α :=
  match outcome with
  | .ok d => ⟨true, some d, none⟩
  | .error detail => ⟨false, none, some (orElseStr detail "Failed to get session info")⟩

/-- `clearSession` (api.ts lines 132-145). -/
def clearSession (outcome : Except (Option String) α) : HelperResult α :=
  match outcome with
  | .ok d => ⟨true, some d, none⟩
  | .error detail => ⟨false, none, some (orElseStr detail "Failed to clear session")⟩

/-- `switchContextStrategy` (api.ts lines 147-160). -/
def switchContextStrategy (outcome : Except (Option String) α) : HelperResult α :=
  match outcome with
  | .ok d => ⟨true, some d, none⟩
  | .error detail => ⟨false, none, some (orElseStr detail "Failed to switch strategy")⟩

/-- `getStrategies` (api.ts lines 162-175). -/
def getStrategies (outcome : Except (Option String) α) : HelperResult α :=
  match outcome with
  | .ok d => ⟨true, some d, none⟩
  | .error detail => ⟨false, none, some (orElseStr detail "Failed to get strategies")⟩

/-- `getSystemStatus` (api.ts lines 177-192): passes the detailed health
payload through on success and returns status `'error'`, empty services and
version `'unknown'` on any failure. -/
def getSystemStatus (outcome : Except (Option String) SystemStatus) : SystemStatus :=
  match outcome with
  | .ok r => ⟨r.status, r.services, r.version⟩
  | .error _ => ⟨"error", [], "unknown"⟩

/-- `enhancedSearch` (api.ts lines 194-207). -/
def enhancedSearch (outcome : Except (Option String) α) : HelperResult α :=
  match outcome with
  | .ok d => ⟨true, some d, none⟩
  | .error detail => ⟨false, none, some (orElseStr detail "Failed to perform search")⟩

/-- `listChats` (api.ts lines 209-216); the success payload is `res.data.items`. -/
def listChats (outcome : Except (Option String) α) : HelperResult α :=
  match outcome with
  | .ok d => ⟨true, some d, none⟩
  | .error detail => ⟨false, none, some (orElseStr detail "Failed to list chats")⟩

/-- `createChat` (api.ts lines 218-225); the success payload is `res.data.chat`. -/
def createChat (outcome : Except (Option String) α) : HelperResult α :=
  match outcome with
  | .ok d => ⟨true, some d, none⟩
  | .error detail => ⟨false, none, some (orElseStr detail "Failed to create chat")⟩

/-- `renameChat` (api.ts lines 227-234); the success object carries no payload. -/
def renameChat (outcome : Except (Option String) Unit) : HelperResult Unit :=
  match outcome with
  | .ok _ => ⟨true, none, none⟩
  | .error detail => ⟨false, none, some (orElseStr detail "Failed to rename chat")⟩

/-- `deleteChat` (api.ts lines 236-243); the success object carries no payload. -/
def deleteChat (outcome : Except (Option String) Unit) : HelperResult Unit :=
  match outcome with
  | .ok _ => ⟨true, none, none⟩
  | .error detail => ⟨false, none, some (orElseStr detail "Failed to delete chat")⟩

/-- `getMessages` (api.ts lines 245-252); the success payload is
`res.data.messages`. -/
def getMessages (outcome : Except (Option String) α) : HelperResult α :=
  match outcome with
  | .ok d => ⟨true, some d, none⟩
  | .error detail => ⟨false, none, some (orElseStr detail "Failed to load messages")⟩

/-- `sendMessage` (api.ts lines 254-261); the success payload is the triple of
`res.data.message`, `res.data.sources || []` and `res.data.graph_insights`. -/
def sendMessage (outcome : Except (Option String) α) : HelperResult α :=
  match outcome with
  | .ok d => ⟨true, some d, none⟩
  | .error detail => ⟨false, none, some (orElseStr detail "Failed to send message")⟩

/-- `listBookmarks` (api.ts lines 263-270). -/
def listBookmarks (outcome : Except (Option String) α) : HelperResult α :=
  match outcome with
  | .ok d => ⟨true, some d, none⟩
  | .error detail => ⟨false, none, some (orElseStr detail "Failed to load bookmarks")⟩

/-- `addBookmark` (api.ts lines 271-278). -/
def addBookmark (outcome : Except (Option String) α) : HelperResult α :=
  match outcome with
  | .ok d => ⟨true, some d, none⟩
  | .error detail => ⟨false, none, some (orElseStr detail "Failed to add bookmark")⟩

/-- `removeBookmark` (api.ts lines 279-286). -/
def removeBookmark (outcome : Except (Option String) α) : HelperResult α :=
  match outcome with
  | .ok d => ⟨true, some d, none⟩
  | .error detail => ⟨false, none, some (orElseStr detail "Failed to remove bookmark")⟩

/-- `listHistory` (api.ts lines 288-296). -/
def listHistory (outcome : Except (Option String) α) : HelperResult α :=
  match outcome with
  | .ok d => ⟨true, some d, none⟩
  | .error detail => ⟨false, none, some (orElseStr detail "Failed to load history")⟩

/-- `clearHistory` (api.ts lines 297-304). -/
def clearHistory (outcome : Except (Option String) α) : HelperResult α :=
  match outcome with
  | .ok d => ⟨true, some d, none⟩
  | .error detail => ⟨false, none, some (orElseStr detail "Failed to clear history")⟩

/-- `getCitationNetwork` (api.ts lines 305-312). -/
def getCitationNetwork (outcome : Except (Option String) α) : HelperResult α :=
  match outcome with
  | .ok d => ⟨true, some d, none⟩
  | .error detail => ⟨false, none, some (orElseStr detail "Failed to load citation network")⟩

end apiHelpers

/-! ## The shared axios instance (frontend/src/services/api.ts lines 4-21) -/

/-- Configuration of the shared axios instance. -/
structure AxiosConfig where
  baseURL : String
  timeout : Nat
  contentTypeHeader : String
deriving DecidableEq, Repr

/-- `axios.create` call (api.ts lines 4-10): base URL from
`process.env.REACT_APP_API_URL || 'http://localhost:8000'`, a 120000 ms
timeout and a JSON content type. -/
def apiConfig (envApiUrl : Option String) : AxiosConfig :=
  { baseURL := orElseStr envApiUrl "http://localhost:8000"
    timeout := 120000
    contentTypeHeader := "application/json" }

/-- Request interceptor (api.ts lines 12-21): reads `auth_token` from
`localStorage` and, when the value is truthy, attaches
`Authorization: Bearer <token>`; otherwise no header is attached. -/
def requestAuthHeader (storage : List (String × String)) : Option String :=
  match lsGet storage "auth_token" with
  | some t => if t = "" then none else some ("Bearer " ++ t)
  | none => none

/-! ## `SourcesPanel` (src/unnamed/part_000 lines 46-235) -/

/-- Round a rational to an integer number of thousandths, half-up; models the
value selected by JavaScript `score.toFixed(3)` (ties in the binary doubles
are abstracted to exact half-up rounding). -/
def roundTo3Scaled (q : ℚ) : ℤ :=
  Int.fdiv (2 * q.num * 1000 + q.den) (2 * q.den)

/-- Left-pad a number below 1000 to three decimal digits. -/
def pad3 (n : Nat) : String :=
  if n < 10 then "00" ++ toString n
  else if n < 100 then "0" ++ toString n
  else toString n

/-- JavaScript `q.toFixed(3)`: decimal rendering with exactly three digits
after the point. -/
def toFixed3 (q : ℚ) : String :=
  let m := roundTo3Scaled q
  (if m < 0 then "-" else "") ++ toString (m.natAbs / 1000) ++ "." ++ pad3 (m.natAbs % 1000)

/-- `ChunkDetail` interface (part_000 lines 22-26).  The TS field `section`
is rendered here as `sectionName` because `section` is a Lean keyword. -/
structure ChunkDetail where
  sectionName : String
  text_preview : String
  score : ℚ
deriving DecidableEq, Repr

/-- `Source` interface (part_000 lines 28-37); `chunk_details` is optional. -/
structure Source where
  arxiv_id : String
  title : String
  chunks_used : Nat
  citation_count : Nat
  is_seminal : Bool
  is_foundational : Bool
  cited_by_results : Nat
  chunk_details : Option (List ChunkDetail)
deriving DecidableEq, Repr

/-- What `SourcesPanel` renders for one source: its title and, when
`chunk_details` is present and non-empty, one `Relevance: <score>` line per
chunk (part_000 lines 206-228). -/
structure SourceView where
  title : String
  chunkRelevanceLines : List String
deriving DecidableEq, Repr

/-- What `SourcesPanel` renders: the header counts of line 70 and the
accordion list of lines 74-232. -/
structure PanelView where
  paperCount : Nat
  totalChunks : Nat
  sourceViews : List SourceView
deriving DecidableEq, Repr

/-- Accordion rendered for one source; the details block with the
`Relevance: {chunk.score.toFixed(3)}` lines appears only when
`chunk_details && chunk_details.length > 0` (part_000 lines 206-228). -/
def sourceAccordion (s : Source) : SourceView :=
  ⟨s.title,
    match s.chunk_details with
    | some cds =>
        if cds.length > 0 then cds.map (fun c => "Relevance: " ++ toFixed3 c.score)
        else []
    | none => []⟩

/-- `SourcesPanel` (part_000 lines 46-235): renders nothing when `sources` is
null or empty (line 52); otherwise shows `sources.length` papers and
`sources.reduce((sum, s) => sum + s.chunks_used, 0)` chunks (lines 54, 70)
above one accordion per source. -/
def SourcesPanel (sources : Option (List Source)) : Option PanelView :=
  match sources with
  | none => none
  | some l =>
      if l.length = 0 then none
      else some ⟨l.length, l.foldl (fun sum s => sum + s.chunks_used) 0,
        l.map sourceAccordion⟩

/-! ## `ContextManagement` (frontend/src/components/SourcesSidebar.tsx,
second document, lines 419-795) -/

/-- `SessionInfo` interface (lines 398-406), restricted to the fields the
embedded code paths read. -/
structure SessionInfo where
  chat_id : String
  status : String
  current_strategy : Option String
deriving DecidableEq, Repr

namespace ContextManagement

/-- Component state of `ContextManagement` (lines 424-428), restricted to the
fields the embedded handlers touch. -/
structure State where
  sessionInfo : Option SessionInfo
  selectedStrategy : String
  loading : Bool
  error : String
deriving DecidableEq, Repr

/-- The three `MenuItem` values of the strategy `Select` (lines 630-647). -/
def strategySelectorValues : List String :=
  ["trimming", "summarization", "hybrid"]

/-- `loadSessionInfo` (lines 432-444) with `apiHelpers.getSessionInfo`
inlined: on success it stores the session info and sets `selectedStrategy` to
`current_strategy || 'hybrid'`; on failure it stores the helper's error
string.  The surrounding catch is unreachable because the helper never
throws. -/
def loadSessionInfo (st : State) (outcome : Except (Option String) SessionInfo) :
    State :=
  match outcome with
  | .ok info =>
      { st with sessionInfo := some info,
                selectedStrategy := orElseStr info.current_strategy "hybrid" }
  | .error detail =>
      { st with error := orElseStr detail "Failed to get session info" }

/-- `handleStrategyChange` (lines 462-480) with
`apiHelpers.switchContextStrategy` inlined, as a transition on the component
state parameterized by the outcomes of the strategy switch and of the
follow-up `loadSessionInfo`. -/
def handleStrategyChange (st : State) (newStrategy : String)
    (switchOutcome : Except (Option String) Unit)
    (sessionOutcome : Except (Option String) SessionInfo) : State :=
  let entered : State := { st with loading := true, error := "" }
  let afterCall : State :=
    match switchOutcome with
    | .ok _ =>
        loadSessionInfo { entered with selectedStrategy := newStrategy }
          sessionOutcome
    | .error detail =>
        { entered with error := orElseStr detail "Failed to switch strategy" }
  { afterCall with loading := false }

/-- The requests issued by one run of `handleStrategyChange`: always the
strategy POST of `apiEndpoints.switchContextStrategy`, followed by the
session-info GET of `loadSessionInfo` when the switch succeeded. -/
def handleStrategyChangeRequests (chatId strategy : String) (switchOk : Bool) :
    List Request :=
  apiEndpoints.switchContextStrategy chatId strategy ::
    (if switchOk then [apiEndpoints.getSessionInfo chatId] else [])

end ContextManagement

/-! ## `ResearchWorkspace` (frontend/src/pages/ResearchWorkspace.tsx) -/

/-- Entry of the `focusedPapers` state (lines 263-315). -/
structure FocusedPaper where
  arxiv_id : String
  title : String
deriving DecidableEq, Repr

namespace ResearchWorkspace

/-- The dedup loop of `loadFocusedPapers` (lines 268-275): walk the backend
list, keeping an entry only when its `arxiv_id` has not been seen. -/
def dedupeLoop (seen : List String) : List FocusedPaper → List FocusedPaper
  | [] => []
  | p :: rest =>
      if p.arxiv_id ∈ seen then dedupeLoop seen rest
      else p :: dedupeLoop (p.arxiv_id :: seen) rest

/-- `loadFocusedPapers` (lines 263-282): the deduplicated list stored into
`focusedPapers` from the backend's `focused_papers` list. -/
def loadFocusedPapers (l : List FocusedPaper) : List FocusedPaper :=
  dedupeLoop [] l

/-- `handleFocusPaper` (lines 284-303): toggle keyed by `arxiv_id`.  Already
focused papers get a DELETE and are filtered out of the list; others get a
POST and are appended.  `callOk` is whether the awaited API call resolved;
when it rejects, the catch (line 300) leaves the state unchanged. -/
def handleFocusPaper (chatId : String) (focusedPapers : List FocusedPaper)
    (arxivId title : String) (callOk : Bool) : Request × List FocusedPaper :=
  if focusedPapers.any (fun p => p.arxiv_id = arxivId) then
    (apiEndpoints.removeFocusedPaper chatId arxivId,
      if callOk then focusedPapers.filter (fun p => p.arxiv_id ≠ arxivId)
      else focusedPapers)
  else
    (apiEndpoints.addFocusedPaper chatId arxivId title,
      if callOk then focusedPapers ++ [⟨arxivId, title⟩]
      else focusedPapers)

/-- `handleUnfocusPaper` (lines 305-315): DELETE then filter out every entry
with the given `arxiv_id`; state unchanged when the call rejects. -/
def handleUnfocusPaper (focusedPapers : List FocusedPaper) (arxivId : String)
    (callOk : Bool) : List FocusedPaper :=
  if callOk then focusedPapers.filter (fun p => p.arxiv_id ≠ arxivId)
  else focusedPapers

/-- A chat message as kept in the `messages` state; the TS field `type` is
rendered as `role` because `type` is a Lean keyword. -/
structure ChatMessage where
  id : String
  role : String
  content : String
deriving DecidableEq, Repr

/-- The component state touched by the synchronous prefix of
`handleSendMessage` (lines 420-432). -/
structure SendState where
  messages : List ChatMessage
  currentMessage : String
  isLoading : Bool
deriving DecidableEq, Repr

/-- The client message id `msg_<Date.now()>_<random36>` (line 422). -/
def clientMsgId (now : Nat) (rand : String) : String :=
  "msg_" ++ toString now ++ "_" ++ rand

/-- The synchronous prefix of `handleSendMessage` (lines 420-432), up to the
first `await`: under the guard `!currentMessage.trim() || isLoading` it
returns without a request and without touching the state; otherwise it
appends the user message, clears the input, sets `isLoading` and issues the
send request with the pre-clear message text. -/
def handleSendMessageStart (chatId : String) (st : SendState) (msgId : String) :
    Option Request × SendState :=
  if jsTrim st.currentMessage = "" || st.isLoading then (none, st)
  else
    (some (apiEndpoints.sendMessage chatId "user" st.currentMessage msgId),
      { messages := st.messages ++ [⟨msgId, "user", st.currentMessage⟩]
        currentMessage := ""
        isLoading := true })

end ResearchWorkspace

/-! ## `AuthContext` (frontend/src/contexts/AuthContext.tsx) -/

/-- `User` interface (AuthContext.tsx lines 4-13). -/
structure User where
  id : String
  email : String
  username : String
  full_name : Option String
  is_active : Bool
  is_verified : Bool
  created_at : String
  last_login : Option String
deriving DecidableEq, Repr

namespace AuthContext

/-- State of `AuthProvider`: the `user` and `token` React states together
with the browser `localStorage`. -/
structure State where
  user : Option User
  token : Option String
  storage : List (String × String)
deriving DecidableEq, Repr

/-- JavaScript `!!s` for a nullable string: false on null and on the empty
string. -/
def truthyToken : Option String → Bool
  | some t => t ≠ ""
  | none => false

/-- `isAuthenticated: !!user && !!token` (AuthContext.tsx line 83). -/
def isAuthenticated (s : State) : Bool :=
  s.user.isSome && truthyToken s.token

/-- Successful `login` (lines 52-57): store the token and user in state and
the access token in `localStorage` under `auth_token`. -/
def login (s : State) (access_token : String) (userData : User) : State :=
  { user := some userData
    token := some access_token
    storage := lsSet s.storage "auth_token" access_token }

/-- Successful `register` (lines 59-64): same state update as `login`. -/
def register (s : State) (access_token : String) (userData : User) : State :=
  { user := some userData
    token := some access_token
    storage := lsSet s.storage "auth_token" access_token }

/-- `logout` (lines 66-73): clear both states and remove `auth_token`. -/
def logout (s : State) : State :=
  { user := none
    token := none
    storage := lsRemove s.storage "auth_token" }

end AuthContext

/-! ## Theorems -/

/-- C1: the context-management strategy selector offers exactly the three
policy values `trimming`, `summarization` and `hybrid`, and for every chat id
and selected value the change handler performs no local context-management
computation: the only state-changing request of a run is the single POST to
`/assistant/session/{chatId}/strategy` with body `{ strategy: <value> }`
issued by `switchContextStrategy`. -/
theorem contextStrategy_selector_single_post (chatId strategy : String)
    (switchOk : Bool) :
    ContextManagement.strategySelectorValues =
      ["trimming", "summarization", "hybrid"] ∧
    apiEndpoints.switchContextStrategy chatId strategy =
      ⟨Method.post, "/assistant/session/" ++ chatId ++ "/strategy",
        [("strategy", strategy)]⟩ ∧
    (ContextManagement.handleStrategyChangeRequests chatId strategy
        switchOk).filter (fun r => r.method = Method.post) =
      [apiEndpoints.switchContextStrategy chatId strategy] := by
  refine ⟨rfl, rfl, ?_⟩
  cases switchOk <;>
    simp [ContextManagement.handleStrategyChangeRequests,
      apiEndpoints.switchContextStrategy, apiEndpoints.getSessionInfo,
      List.filter]

/-- C2 counterexample: the claim says the returned error string equals the
backend's response `detail` field whenever that field is present.  With the
`detail` field present but equal to the empty string, `detail || fallback`
evaluates to the fallback, so `apiHelpers.queryAssistant` reports the
fallback message and not the (present) detail value. -/
theorem apiHelpers_error_detail_present_counterexample :
    (apiHelpers.queryAssistant (Except.error (some "")) : HelperResult Unit).success
        = false ∧
    (apiHelpers.queryAssistant (Except.error (some "")) : HelperResult Unit).error
        = some "Failed to query assistant" ∧
    (apiHelpers.queryAssistant (Except.error (some "")) : HelperResult Unit).error
        ≠ some "" := by
  refine ⟨rfl, rfl, ?_⟩
  decide

/-- C2 (amended): every operation in `apiHelpers` is a total function of the
HTTP outcome; on any request failure the returned value signals failure:
`success: false` with an error string equal to the backend's response
`detail` field when present and non-empty (truthy) and the operation's fixed
fallback message otherwise, while `checkHealth` returns `false` and
`getSystemStatus` returns status `error`, empty services and version
`unknown`. -/
theorem apiHelpers_error_handling (detail : Option String) (fb : String) :
    (detail = none → orElseStr detail fb = fb) ∧
    (detail = some "" → orElseStr detail fb = fb) ∧
    (∀ d, detail = some d → d ≠ "" → orElseStr detail fb = d) ∧
    apiHelpers.checkHealth (Except.error detail) = false ∧
    apiHelpers.getSystemStatus (Except.error detail) = ⟨"error", [], "unknown"⟩ ∧
    (apiHelpers.queryAssistant (Except.error detail) : HelperResult Unit) =
      ⟨false, none, some (orElseStr detail "Failed to query assistant")⟩ ∧
    (apiHelpers.getSessionInfo (Except.error detail) : HelperResult Unit) =
      ⟨false, none, some (orElseStr detail "Failed to get session info")⟩ ∧
    (apiHelpers.clearSession (Except.error detail) : HelperResult Unit) =
      ⟨false, none, some (orElseStr detail "Failed to clear session")⟩ ∧
    (apiHelpers.switchContextStrategy (Except.error detail) : HelperResult Unit) =
      ⟨false, none, some (orElseStr detail "Failed to switch strategy")⟩ ∧
    (apiHelpers.getStrategies (Except.error detail) : HelperResult Unit) =
      ⟨false, none, some (orElseStr detail "Failed to get strategies")⟩ ∧
    (apiHelpers.enhancedSearch (Except.error detail) : HelperResult Unit) =
      ⟨false, none, some (orElseStr detail "Failed to perform search")⟩ ∧
    (apiHelpers.listChats (Except.error detail) : HelperResult Unit) =
      ⟨false, none, some (orElseStr detail "Failed to list chats")⟩ ∧
    (apiHelpers.createChat (Except.error detail) : HelperResult Unit) =
      ⟨false, none, some (orElseStr detail "Failed to create chat")⟩ ∧
    apiHelpers.renameChat (Except.error detail) =
      ⟨false, none, some (orElseStr detail "Failed to rename chat")⟩ ∧
    apiHelpers.deleteChat (Except.error detail) =
      ⟨false, none, some (orElseStr detail "Failed to delete chat")⟩ ∧
    (apiHelpers.getMessages (Except.error detail) : HelperResult Unit) =
      ⟨false, none, some (orElseStr detail "Failed to load messages")⟩ ∧
    (apiHelpers.sendMessage (Except.error detail) : HelperResult Unit) =
      ⟨false, none, some (orElseStr detail "Failed to send message")⟩ ∧
    (apiHelpers.listBookmarks (Except.error detail) : HelperResult Unit) =
      ⟨false, none, some (orElseStr detail "Failed to load bookmarks")⟩ ∧
    (apiHelpers.addBookmark (Except.error detail) : HelperResult Unit) =
      ⟨false, none, some (orElseStr detail "Failed to add bookmark")⟩ ∧
    (apiHelpers.removeBookmark (Except.error detail) : HelperResult Unit) =
      ⟨false, none, some (orElseStr detail "Failed to remove bookmark")⟩ ∧
    (apiHelpers.listHistory (Except.error detail) : HelperResult Unit) =
      ⟨false, none, some (orElseStr detail "Failed to load history")⟩ ∧
    (apiHelpers.clearHistory (Except.error detail) : HelperResult Unit) =
      ⟨false, none, some (orElseStr detail "Failed to clear history")⟩ ∧
    (apiHelpers.getCitationNetwork (Except.error detail) : HelperResult Unit) =
      ⟨false, none, some (orElseStr detail "Failed to load citation network")⟩ ∧
    (apiHelpers.queryAssistant (Except.ok ()) : HelperResult Unit) =
      ⟨true, some (), none⟩ ∧
    apiHelpers.checkHealth (Except.ok "healthy") = true ∧
    apiHelpers.getSystemStatus (Except.ok ⟨"healthy", [("db", "up")], "1.0"⟩) =
      ⟨"healthy", [("db", "up")], "1.0"⟩ := by
  refine ⟨?_, ?_, ?_, rfl, rfl, rfl, rfl, rfl, rfl, rfl, rfl, rfl, rfl, rfl,
    rfl, rfl, rfl, rfl, rfl, rfl, rfl, rfl, rfl, rfl, rfl, rfl⟩
  · rintro rfl; rfl
  · rintro rfl; rfl
  · rintro d rfl hd
    simp [orElseStr, hd]

/-- C2 witness: at the concrete failing outcome whose `detail` is the
non-empty string `boom`, the reported error is `boom` itself and
`checkHealth` reports `false`. -/
theorem apiHelpers_error_handling_witness :
    orElseStr (some "boom") "Failed to query assistant" = "boom" ∧
    apiHelpers.checkHealth (Except.error (some "boom")) = false :=
  ⟨(apiHelpers_error_handling (some "boom") "Failed to query assistant").2.2.1
      "boom" rfl (by decide),
    (apiHelpers_error_handling (some "boom") "Failed to query assistant").2.2.2.1⟩

/-- C3: switching the context strategy is atomic with respect to the
displayed selection: whenever the switch call fails, `handleStrategyChange`
records a non-empty error message (the backend detail when truthy, a fixed
fallback otherwise) and leaves `selectedStrategy` unchanged; a run can change
`selectedStrategy` only when the switch call succeeded. -/
theorem handleStrategyChange_atomic (st : ContextManagement.State)
    (newStrategy : String) (detail : Option String)
    (sessionOutcome : Except (Option String) SessionInfo) :
    (ContextManagement.handleStrategyChange st newStrategy (Except.error detail)
        sessionOutcome).selectedStrategy = st.selectedStrategy ∧
    (ContextManagement.handleStrategyChange st newStrategy (Except.error detail)
        sessionOutcome).error = orElseStr detail "Failed to switch strategy" ∧
    (ContextManagement.handleStrategyChange st newStrategy (Except.error detail)
        sessionOutcome).error ≠ "" ∧
    ∀ switchOutcome : Except (Option String) Unit,
      (ContextManagement.handleStrategyChange st newStrategy switchOutcome
          sessionOutcome).selectedStrategy ≠ st.selectedStrategy →
      switchOutcome = Except.ok () := by
  refine ⟨rfl, rfl, ?_, ?_⟩
  · cases detail with
    | none => simp [ContextManagement.handleStrategyChange, orElseStr]
    | some d =>
        by_cases hd : d = "" <;>
          simp [ContextManagement.handleStrategyChange, orElseStr, hd]
  · intro switchOutcome h
    cases switchOutcome with
    | ok u => cases u; rfl
    | error d => exact absurd rfl h

/-- C3 witness: a concrete run whose switch call succeeds and does change the
selection, discharging the hypothesis of the final conjunct. -/
theorem handleStrategyChange_atomic_witness :
    (Except.ok () : Except (Option String) Unit) = Except.ok () :=
  (handleStrategyChange_atomic ⟨none, "hybrid", false, ""⟩ "trimming" none
      (Except.error none)).2.2.2 (Except.ok ()) (by decide)

/-- C4: focusing is a toggle keyed by arXiv id.  On a paper whose `arxiv_id`
is not in `focusedPapers`, `handleFocusPaper` issues a POST to
`/assistant/session/{chatId}/focus` with body `{ arxiv_id, title }` and
appends the paper; on a paper whose `arxiv_id` is already present it issues a
DELETE to `/assistant/session/{chatId}/focus/{arxivId}` and removes every
entry with that `arxiv_id`. -/
theorem handleFocusPaper_toggle (chatId : String) (papers : List FocusedPaper)
    (arxivId title : String) :
    (papers.any (fun p => p.arxiv_id = arxivId) = false →
      ResearchWorkspace.handleFocusPaper chatId papers arxivId title true =
        (⟨Method.post, "/assistant/session/" ++ chatId ++ "/focus",
            [("arxiv_id", arxivId), ("title", title)]⟩,
          papers ++ [⟨arxivId, title⟩])) ∧
    (papers.any (fun p => p.arxiv_id = arxivId) = true →
      (ResearchWorkspace.handleFocusPaper chatId papers arxivId title true).1 =
        ⟨Method.delete,
          "/assistant/session/" ++ chatId ++ "/focus/" ++ arxivId, []⟩ ∧
      (ResearchWorkspace.handleFocusPaper chatId papers arxivId title true).2 =
        papers.filter (fun p => p.arxiv_id ≠ arxivId) ∧
      ∀ p ∈ (ResearchWorkspace.handleFocusPaper chatId papers arxivId title
          true).2, p.arxiv_id ≠ arxivId) := by
  constructor
  · intro h
    simp [ResearchWorkspace.handleFocusPaper, h,
      apiEndpoints.addFocusedPaper]
  · intro h
    refine ⟨?_, ?_, ?_⟩
    · simp [ResearchWorkspace.handleFocusPaper, h,
        apiEndpoints.removeFocusedPaper]
    · simp [ResearchWorkspace.handleFocusPaper, h]
    · intro p hp
      simp [ResearchWorkspace.handleFocusPaper, h] at hp
      exact hp.2

/-- C4 witness: focusing an unfocused paper in an empty list issues the POST
and appends; invoking the action again on the now-focused paper issues the
DELETE. -/
theorem handleFocusPaper_toggle_witness :
    ResearchWorkspace.handleFocusPaper "c1" [] "2401.00001" "Paper T" true =
      (⟨Method.post, "/assistant/session/" ++ "c1" ++ "/focus",
          [("arxiv_id", "2401.00001"), ("title", "Paper T")]⟩,
        [⟨"2401.00001", "Paper T"⟩]) ∧
    (ResearchWorkspace.handleFocusPaper "c1" [⟨"2401.00001", "Paper T"⟩]
        "2401.00001" "Paper T" true).1 =
      ⟨Method.delete,
        "/assistant/session/" ++ "c1" ++ "/focus/" ++ "2401.00001", []⟩ :=
  ⟨(handleFocusPaper_toggle "c1" [] "2401.00001" "Paper T").1 (by decide),
    ((handleFocusPaper_toggle "c1" [⟨"2401.00001", "Paper T"⟩] "2401.00001"
        "Paper T").2 (by decide)).1⟩

/-- The `reduce` of part_000 line 54 computes the sum of `chunks_used`. -/
theorem foldl_chunks_eq_sum (l : List Source) (n : Nat) :
    l.foldl (fun sum s => sum + s.chunks_used) n =
      n + (l.map Source.chunks_used).sum := by
  induction l generalizing n with
  | nil => simp
  | cons s rest ih => simp [List.foldl_cons, ih, Nat.add_assoc]

/-- C5: `SourcesPanel` renders nothing when the sources list is null or
empty; on a non-empty list it shows a paper count equal to the length of the
list and a total chunk count equal to the sum of `chunks_used`, and each
source's accordion details contain one `Relevance:` line per chunk with the
chunk's score formatted to three decimal places (none when `chunk_details`
is absent or empty). -/
theorem SourcesPanel_render (s : Source) (rest : List Source) :
    SourcesPanel none = none ∧
    SourcesPanel (some []) = none ∧
    (∃ v, SourcesPanel (some (s :: rest)) = some v ∧
      v.paperCount = (s :: rest).length ∧
      v.totalChunks = ((s :: rest).map Source.chunks_used).sum ∧
      v.sourceViews = (s :: rest).map sourceAccordion) ∧
    ∀ src : Source, (sourceAccordion src).chunkRelevanceLines =
      (src.chunk_details.getD []).map
        (fun c => "Relevance: " ++ toFixed3 c.score) := by
  refine ⟨rfl, rfl, ?_, ?_⟩
  · refine ⟨⟨(s :: rest).length,
      (s :: rest).foldl (fun sum t => sum + t.chunks_used) 0,
      (s :: rest).map sourceAccordion⟩, ?_, rfl, ?_, rfl⟩
    · simp [SourcesPanel]
    · simp [foldl_chunks_eq_sum]
  · intro src
    cases h : src.chunk_details with
    | none => simp [sourceAccordion, h]
    | some cds =>
        cases cds with
        | nil => simp [sourceAccordion, h]
        | cons c cs => simp [sourceAccordion, h]

/-- C6: every request through the shared axios instance targets a single base
URL (`REACT_APP_API_URL` when set to a non-empty value, otherwise
`http://localhost:8000`) with a 120000 ms timeout and a JSON content type,
and the request interceptor attaches `Authorization: Bearer <token>` exactly
when a truthy token is stored in `localStorage` under `auth_token` (a stored
empty string is falsy in JavaScript and attaches nothing). -/
theorem apiConfig_base_and_auth (envApiUrl : Option String)
    (storage : List (String × String)) (s t : String) :
    (apiConfig envApiUrl).timeout = 120000 ∧
    (apiConfig envApiUrl).contentTypeHeader = "application/json" ∧
    (apiConfig none).baseURL = "http://localhost:8000" ∧
    (s ≠ "" → (apiConfig (some s)).baseURL = s) ∧
    (apiConfig (some "")).baseURL = "http://localhost:8000" ∧
    (lsGet storage "auth_token" = some t → t ≠ "" →
      requestAuthHeader storage = some ("Bearer " ++ t)) ∧
    (lsGet storage "auth_token" = none → requestAuthHeader storage = none) ∧
    (lsGet storage "auth_token" = some "" → requestAuthHeader storage = none) := by
  refine ⟨rfl, rfl, rfl, ?_, rfl, ?_, ?_, ?_⟩
  · intro hs
    simp [apiConfig, orElseStr, hs]
  · intro ht htne
    simp [requestAuthHeader, ht, htne]
  · intro ht
    simp [requestAuthHeader, ht]
  · intro ht
    simp [requestAuthHeader, ht]

/-- C6 witness: with the environment URL set to a concrete non-empty value
and a concrete token in storage, the base URL is the environment value and
the interceptor attaches the bearer header. -/
theorem apiConfig_base_and_auth_witness :
    (apiConfig (some "https://api.example.com")).baseURL =
      "https://api.example.com" ∧
    requestAuthHeader [("auth_token", "tok123")] = some ("Bearer " ++ "tok123") :=
  ⟨((apiConfig_base_and_auth (some "https://api.example.com") [] 
      "https://api.example.com" "tok123").2.2.2.1) (by decide),
    ((apiConfig_base_and_auth (some "https://api.example.com")
        [("auth_token", "tok123")] "x" "tok123").2.2.2.2.2.1) (by decide)
      (by decide)⟩

/-- C7: `apiHelpers.queryAssistant` addresses the assistant session by a chat
id: a supplied non-empty `chatId` is used unchanged, and with no `chatId` a
fresh id `chat_<timestamp>` is generated; the request is a GET to
`/assistant` carrying the URL-encoded query, that chat id and the
conversation type, which defaults to `research`. -/
theorem queryAssistant_request_shape (query : String) (chatId : Option String)
    (now : Nat) (conversationType c : String) :
    apiHelpers.queryAssistantRequest query chatId now conversationType =
      ⟨Method.get,
        "/assistant?q=" ++ encodeURIComponent query ++ "&chat_id=" ++
          apiHelpers.queryAssistantSessionId chatId now ++
          "&conversation_type=" ++ conversationType,
        []⟩ ∧
    (chatId = some c → c ≠ "" →
      apiHelpers.queryAssistantSessionId chatId now = c) ∧
    (chatId = none →
      apiHelpers.queryAssistantSessionId chatId now = "chat_" ++ toString now) ∧
    apiHelpers.queryAssistantRequestDefault query chatId now =
      apiHelpers.queryAssistantRequest query chatId now "research" ∧
    encodeURIComponent "a query?&=" = "a%20query%3F%26%3D" := by
  refine ⟨rfl, ?_, ?_, rfl, by decide⟩
  · rintro rfl hc
    simp [apiHelpers.queryAssistantSessionId, orElseStr, hc]
  · rintro rfl
    rfl

/-- C7 witness: with a supplied chat id `c42` the request carries `c42`
unchanged; with none supplied at timestamp 1700 it carries `chat_1700`. -/
theorem queryAssistant_request_shape_witness :
    apiHelpers.queryAssistantSessionId (some "c42") 1700 = "c42" ∧
    apiHelpers.queryAssistantSessionId none 1700 = "chat_" ++ toString 1700 :=
  ⟨((queryAssistant_request_shape "q" (some "c42") 1700 "research" "c42").2.1)
      rfl (by decide),
    ((queryAssistant_request_shape "q" none 1700 "research" "c42").2.2.1) rfl⟩

/-- The dedup loop keeps, for each id, exactly the first occurrence among the
entries whose id is not already in `seen`. -/
theorem dedupeLoop_filter (idv : String) (l : List FocusedPaper) :
    ∀ seen : List String,
      (ResearchWorkspace.dedupeLoop seen l).filter (fun p => p.arxiv_id = idv) =
        if idv ∈ seen then []
        else (l.filter (fun p => p.arxiv_id = idv)).take 1 := by
  induction l with
  | nil =>
      intro seen
      by_cases h : idv ∈ seen <;> simp [ResearchWorkspace.dedupeLoop, h]
  | cons p rest ih =>
      intro seen
      by_cases hp : p.arxiv_id ∈ seen
      · rw [ResearchWorkspace.dedupeLoop, if_pos hp, ih seen]
        by_cases hs : idv ∈ seen
        · simp [hs]
        · have hne : ¬p.arxiv_id = idv := fun h => hs (h ▸ hp)
          simp [hs, List.filter_cons, hne]
      · rw [ResearchWorkspace.dedupeLoop, if_neg hp]
        by_cases hpid : p.arxiv_id = idv
        · subst hpid
          have hs : p.arxiv_id ∉ seen := hp
          rw [List.filter_cons_of_pos (by simp), ih (p.arxiv_id :: seen)]
          simp [hs, List.filter_cons]
        · rw [List.filter_cons_of_neg (by simp [hpid]), ih (p.arxiv_id :: seen)]
          have hpid2 : ¬idv = p.arxiv_id := fun hq => hpid hq.symm
          by_cases hs : idv ∈ seen
          · simp [hs, hpid2]
          · simp [hs, hpid, hpid2, List.filter_cons]

/-- The dedup loop yields pairwise distinct ids, all outside `seen`. -/
theorem dedupeLoop_nodup (l : List FocusedPaper) :
    ∀ seen : List String,
      ((ResearchWorkspace.dedupeLoop seen l).map FocusedPaper.arxiv_id).Nodup ∧
      ∀ x ∈ seen,
        x ∉ (ResearchWorkspace.dedupeLoop seen l).map FocusedPaper.arxiv_id := by
  induction l with
  | nil => intro seen; simp [ResearchWorkspace.dedupeLoop]
  | cons p rest ih =>
      intro seen
      by_cases hp : p.arxiv_id ∈ seen
      · rw [ResearchWorkspace.dedupeLoop, if_pos hp]
        exact ih seen
      · rw [ResearchWorkspace.dedupeLoop, if_neg hp]
        refine ⟨?_, ?_⟩
        · rw [List.map_cons, List.nodup_cons]
          exact ⟨(ih (p.arxiv_id :: seen)).2 p.arxiv_id (by simp),
            (ih (p.arxiv_id :: seen)).1⟩
        · intro x hx
          rw [List.map_cons, List.mem_cons]
          rintro (rfl | hmem)
          · exact hp hx
          · exact (ih (p.arxiv_id :: seen)).2 x (by simp [hx]) hmem

/-- C8: the `focusedPapers` list never holds two entries with the same
`arxiv_id`: `loadFocusedPapers` deduplicates the backend list by `arxiv_id`
keeping, for each id, exactly the first occurrence; `handleFocusPaper` and
`handleUnfocusPaper` preserve distinctness of the ids; and after an
unfocus no entry with the removed `arxiv_id` remains. -/
theorem focusedPapers_no_duplicate_ids (l papers : List FocusedPaper)
    (chatId arxivId title idv : String) (ok : Bool) :
    ((ResearchWorkspace.loadFocusedPapers l).map FocusedPaper.arxiv_id).Nodup ∧
    (ResearchWorkspace.loadFocusedPapers l).filter (fun p => p.arxiv_id = idv) =
      (l.filter (fun p => p.arxiv_id = idv)).take 1 ∧
    ((papers.map FocusedPaper.arxiv_id).Nodup →
      (((ResearchWorkspace.handleFocusPaper chatId papers arxivId title
          ok).2).map FocusedPaper.arxiv_id).Nodup) ∧
    ((papers.map FocusedPaper.arxiv_id).Nodup →
      ((ResearchWorkspace.handleUnfocusPaper papers arxivId ok).map
        FocusedPaper.arxiv_id).Nodup) ∧
    (∀ p ∈ ResearchWorkspace.handleUnfocusPaper papers arxivId true,
      p.arxiv_id ≠ arxivId) := by
  have hfilter_nodup : ∀ (ps : List FocusedPaper) (f : FocusedPaper → Bool),
      (ps.map FocusedPaper.arxiv_id).Nodup →
      ((ps.filter f).map FocusedPaper.arxiv_id).Nodup :=
    fun ps f h => h.sublist ((List.filter_sublist ps).map FocusedPaper.arxiv_id)
  refine ⟨(dedupeLoop_nodup l []).1, ?_, ?_, ?_, ?_⟩
  · rw [ResearchWorkspace.loadFocusedPapers, dedupeLoop_filter idv l []]
    simp
  · intro h
    by_cases hmem : papers.any (fun p => p.arxiv_id = arxivId)
    · rw [ResearchWorkspace.handleFocusPaper, if_pos hmem]
      cases ok with
      | false => exact h
      | true => exact hfilter_nodup papers _ h
    · rw [ResearchWorkspace.handleFocusPaper, if_neg hmem]
      cases ok with
      | false => exact h
      | true =>
          rw [if_pos rfl, List.map_append, List.map_cons, List.map_nil,
            List.nodup_append]
          refine ⟨h, List.nodup_singleton _, ?_⟩
          intro x hx hx1
          simp only [List.mem_singleton] at hx1
          subst hx1
          obtain ⟨p, hp, hpid⟩ := List.mem_map.mp hx
          exact hmem (List.any_eq_true.mpr ⟨p, hp, by simp [hpid]⟩)
  · intro h
    rw [ResearchWorkspace.handleUnfocusPaper]
    cases ok with
    | false => exact h
    | true => exact hfilter_nodup papers _ h
  · intro p hp
    rw [ResearchWorkspace.handleUnfocusPaper, if_pos rfl] at hp
    have := (List.mem_filter.mp hp).2
    simpa using this

/-- C8 witness: a concrete backend list with a duplicated id is deduplicated
keeping the first occurrence, and toggling focus on a concrete singleton
state keeps the ids distinct. -/
theorem focusedPapers_no_duplicate_ids_witness :
    ((ResearchWorkspace.loadFocusedPapers
        [⟨"1", "a"⟩, ⟨"2", "b"⟩, ⟨"1", "c"⟩]).map FocusedPaper.arxiv_id).Nodup ∧
    (((ResearchWorkspace.handleFocusPaper "c" [⟨"1", "a"⟩] "1" "a" true).2).map
      FocusedPaper.arxiv_id).Nodup :=
  ⟨(focusedPapers_no_duplicate_ids [⟨"1", "a"⟩, ⟨"2", "b"⟩, ⟨"1", "c"⟩] []
      "c" "1" "a" "1" true).1,
    (focusedPapers_no_duplicate_ids [] [⟨"1", "a"⟩] "c" "1" "a" "1" true).2.2.1
      (by decide)⟩

/-- C9: `handleSendMessage` is a no-op under its guard: when the current
message trims to empty or a send is already in flight, it issues no request
and leaves the message list and the input untouched; otherwise it appends
the user message and clears the input before the request is awaited, issuing
the send request with the pre-clear message text. -/
theorem handleSendMessage_guard (chatId : String)
    (st : ResearchWorkspace.SendState) (msgId : String) :
    (jsTrim st.currentMessage = "" ∨ st.isLoading = true →
      ResearchWorkspace.handleSendMessageStart chatId st msgId = (none, st)) ∧
    (jsTrim st.currentMessage ≠ "" → st.isLoading = false →
      ResearchWorkspace.handleSendMessageStart chatId st msgId =
        (some (apiEndpoints.sendMessage chatId "user" st.currentMessage msgId),
          ⟨st.messages ++ [⟨msgId, "user", st.currentMessage⟩], "", true⟩)) := by
  constructor
  · intro h
    rcases h with h | h <;>
      simp [ResearchWorkspace.handleSendMessageStart, h]
  · intro h1 h2
    simp [ResearchWorkspace.handleSendMessageStart, h1, h2]

/-- C9 witness: a whitespace-only input with no send in flight is a no-op,
and a concrete non-empty input issues the POST and clears the input. -/
theorem handleSendMessage_guard_witness :
    ResearchWorkspace.handleSendMessageStart "c1" ⟨[], "  ", false⟩ "m1" =
      (none, ⟨[], "  ", false⟩) ∧
    ResearchWorkspace.handleSendMessageStart "c1" ⟨[], "hi", false⟩ "m1" =
      (some (apiEndpoints.sendMessage "c1" "user" "hi" "m1"),
        ⟨[⟨"m1", "user", "hi"⟩], "", true⟩) :=
  ⟨(handleSendMessage_guard "c1" ⟨[], "  ", false⟩ "m1").1 (Or.inl (by decide)),
    (handleSendMessage_guard "c1" ⟨[], "hi", false⟩ "m1").2 (by decide) rfl⟩

/-- C10 counterexample: the claim says `isAuthenticated` is true exactly when
both `user` and `token` are non-null.  After a login whose backend response
carries the empty access token, both are non-null but `!!token` is false in
JavaScript, so `isAuthenticated` is false. -/
theorem authContext_nonnull_counterexample :
    (AuthContext.login ⟨none, none, []⟩ ""
        ⟨"u1", "a@b.c", "alice", none, true, false, "2024-01-01", none⟩).user
      ≠ none ∧
    (AuthContext.login ⟨none, none, []⟩ ""
        ⟨"u1", "a@b.c", "alice", none, true, false, "2024-01-01", none⟩).token
      ≠ none ∧
    AuthContext.isAuthenticated (AuthContext.login ⟨none, none, []⟩ ""
        ⟨"u1", "a@b.c", "alice", none, true, false, "2024-01-01", none⟩)
      = false := by
  refine ⟨?_, ?_, rfl⟩ <;> simp [AuthContext.login]

/-- C10 (amended): `isAuthenticated` is true exactly when `user` is non-null
and `token` is non-null and non-empty; successful login or register set both
and store the access token in `localStorage` under `auth_token`; logout
clears both and removes `auth_token`, so `isAuthenticated` is false after
every logout. -/
theorem authContext_invariant (s : AuthContext.State) (access_token : String)
    (u : User) :
    (AuthContext.isAuthenticated s = true ↔
      s.user ≠ none ∧ ∃ t, s.token = some t ∧ t ≠ "") ∧
    (AuthContext.login s access_token u).user = some u ∧
    (AuthContext.login s access_token u).token = some access_token ∧
    lsGet (AuthContext.login s access_token u).storage "auth_token" =
      some access_token ∧
    AuthContext.register s access_token u = AuthContext.login s access_token u ∧
    (AuthContext.logout s).user = none ∧
    (AuthContext.logout s).token = none ∧
    lsGet (AuthContext.logout s).storage "auth_token" = none ∧
    AuthContext.isAuthenticated (AuthContext.logout s) = false := by
  refine ⟨?_, rfl, rfl, ?_, rfl, rfl, rfl, ?_, rfl⟩
  · constructor
    · intro h
      rw [AuthContext.isAuthenticated, Bool.and_eq_true] at h
      refine ⟨?_, ?_⟩
      · cases hu : s.user with
        | none => rw [hu] at h; simp [Option.isSome] at h
        | some v => simp [hu]
      · cases ht : s.token with
        | none => rw [ht] at h; simp [AuthContext.truthyToken] at h
        | some t =>
            rw [ht] at h
            simp only [AuthContext.truthyToken, decide_eq_true_eq] at h
            exact ⟨t, rfl, h.2⟩
    · rintro ⟨hu, t, ht, htne⟩
      rw [AuthContext.isAuthenticated, ht]
      cases hus : s.user with
      | none => exact absurd hus hu
      | some v => simp [AuthContext.truthyToken, htne]
  · simp [AuthContext.login, lsGet, List.find?]
  · rw [AuthContext.logout]
    show (List.find? _ (lsRemove s.storage "auth_token")).map _ = none
    rw [List.find?_eq_none.mpr]
    · rfl
    · intro kv hkv
      have := (List.mem_filter.mp hkv).2
      simpa using this
